import Mathlib

/-!
Shallow embedding of the prescient-sdk credential-brokering client
(src/prescient_sdk/client.py): the dual-credential cache and refresh engine
of PrescientClient.  The msal identity provider and the AWS STS exchange are
modelled as environment oracles; each client operation becomes a function
from an environment, a current UTC instant and a client state to an outcome
(result or raised error, successor state, and the trace of external calls).
-/

namespace PrescientSDK

/-- UTC instants are modelled as integers (seconds since the epoch).
Python datetime comparison becomes integer comparison, and
astimezone(timezone.utc) is the identity on an absolute instant. -/
abbrev Instant := Int

/-- The fields of the Settings object that client.py reads. -/
structure Settings where
  prescient_endpoint_url : String
  prescient_aws_region : String
  prescient_aws_role : String
  prescient_tenant_id : String
  prescient_client_id : String
  prescient_auth_url : String
  deriving DecidableEq, Repr

/-- The client field holding auth credentials: a Python dict whose keys read or
written by client.py are modelled as optional fields.  id_token is the bearer
token, refresh_token the refresh token, expiration the instant the client
itself stores, expires_in the provider expiry hint (never read by the client).
extra records whether the dict holds any further keys (provider metadata), so
that Python dict truthiness can be modelled exactly. -/
structure AuthDict where
  id_token : Option String
  refresh_token : Option String
  expiration : Option Instant
  expires_in : Option Int
  extra : Bool
  deriving DecidableEq, Repr

/-- Python dict emptiness for the auth-credentials dict: no key is present. -/
def AuthDict.isEmpty (d : AuthDict) : Bool :=
  d.id_token.isNone && d.refresh_token.isNone && d.expiration.isNone &&
    d.expires_in.isNone && !d.extra

/-- The client field holding bucket credentials: the Credentials payload of an
STS assume-role response, keys modelled as optional fields; extra records
whether the dict holds any further keys. -/
structure BucketDict where
  AccessKeyId : Option String
  SecretAccessKey : Option String
  SessionToken : Option String
  Expiration : Option Instant
  extra : Bool
  deriving DecidableEq, Repr

/-- Python dict emptiness for the bucket-credentials dict. -/
def BucketDict.isEmpty (d : BucketDict) : Bool :=
  d.AccessKeyId.isNone && d.SecretAccessKey.isNone && d.SessionToken.isNone &&
    d.Expiration.isNone && !d.extra

/-- The empty bucket-credentials dict, the default of response.get. -/
def BucketDict.empty : BucketDict :=
  { AccessKeyId := none, SecretAccessKey := none, SessionToken := none,
    Expiration := none, extra := false }

/-- The external capabilities consumed by the client, as oracles:
acquire_token_interactive and acquire_token_by_refresh_token are the msal
calls (the scope list is the fixed constant of client.py and is omitted);
assume_role_with_web_identity is the STS exchange, taking the duration, the
role ARN and the web identity token, and returning the Credentials payload of
the response, or none when the response carries no Credentials key.  The
session name is the fixed constant of client.py; the region only configures
the boto3 client object. -/
structure Env where
  acquire_token_interactive : AuthDict
  acquire_token_by_refresh_token : String → AuthDict
  assume_role_with_web_identity : Int → String → Option String → Option BucketDict

/-- The mutable state of a PrescientClient instance: the settings and the two
cached credential dicts. -/
structure ClientState where
  settings : Settings
  auth_credentials : AuthDict
  bucket_credentials : BucketDict
  deriving DecidableEq, Repr

/-- The error kinds raised by the embedded operations.  client.py raises
ValueError at line 157 when no bearer token is obtained (the spec error kind
AuthenticationFailure) and at line 213 when the exchange response carries no
credentials (the spec error kind CredentialExchangeFailure); keyError models
the Python KeyError on a missing dict key. -/
inductive Err where
  | authenticationFailure
  | credentialExchangeFailure
  | keyError (key : String)
  deriving DecidableEq, Repr

/-- One external-capability invocation, recorded in program order. -/
inductive CallEvent where
  | acquire_token_interactive
  | acquire_token_by_refresh_token
  | assume_role_with_web_identity
  deriving DecidableEq, Repr

/-- The outcome of one client operation: the returned value or raised error,
the client state after the call (mutations made before a raise persist, as in
Python), and the trace of external-capability calls. -/
structure Outcome (α : Type) where
  result : Except Err α
  state : ClientState
  calls : List CallEvent
  deriving Repr

/-- client.py line 71: self._expiration_duration = 1 * 60 * 60, fixed 1 hour. -/
def expiration_duration : Int := 1 * 60 * 60

/-- client.py lines 236-251, property credentials_expired as a pure read:
returns False when the expiration key is present and now is strictly before
it, True otherwise. -/
def credentials_expired (now : Instant) (s : ClientState) : Bool :=
  match s.auth_credentials.expiration with
  | some expiration => if now < expiration then false else true
  | none => true

/-- client.py lines 236-251, property credentials_expired as an operation on
the client state, statement by statement (it only reads fields and compares
instants). -/
def credentials_expired_op (now : Instant) (s : ClientState) : Outcome Bool :=
  match s.auth_credentials.expiration with
  | some expiration =>
      if now < expiration then ⟨Except.ok false, s, []⟩
      else ⟨Except.ok true, s, []⟩
  | none => ⟨Except.ok true, s, []⟩

/-- client.py lines 86-164, property auth_credentials: return the cached dict
when not expired; otherwise fetch interactively when the dict is empty or has
no refresh_token key, else by refresh token; store the fetched dict; raise
when its id_token is missing or empty; otherwise set expiration to
time_zero + expiration_duration and return the stored dict. -/
def auth_credentials (env : Env) (now : Instant) (s : ClientState) :
    Outcome AuthDict :=
  if !(credentials_expired now s) then
    ⟨Except.ok s.auth_credentials, s, []⟩
  else
    let fetched :=
      if s.auth_credentials.isEmpty || s.auth_credentials.refresh_token.isNone then
        (env.acquire_token_interactive, CallEvent.acquire_token_interactive)
      else
        (env.acquire_token_by_refresh_token (s.auth_credentials.refresh_token.getD ""),
          CallEvent.acquire_token_by_refresh_token)
    let s1 : ClientState := { s with auth_credentials := fetched.1 }
    let token : String := fetched.1.id_token.getD ""
    if token = "" then
      ⟨Except.error Err.authenticationFailure, s1, [fetched.2]⟩
    else
      let s2 : ClientState :=
        { s1 with auth_credentials :=
            { fetched.1 with expiration := some (now + expiration_duration) } }
      ⟨Except.ok s2.auth_credentials, s2, [fetched.2]⟩

/-- client.py lines 180-220, property bucket_credentials: return the cached
dict when it is nonempty and credentials_expired is false; otherwise obtain
the bearer token through auth_credentials (propagating a raise), exchange it,
store the Credentials payload of the response (an empty dict when absent),
raise when that payload is empty, read back its Expiration key (KeyError when
absent) and store it converted to UTC (identity on instants), and return the
stored dict. -/
def bucket_credentials (env : Env) (now : Instant) (s : ClientState) :
    Outcome BucketDict :=
  if !s.bucket_credentials.isEmpty && !(credentials_expired now s) then
    ⟨Except.ok s.bucket_credentials, s, []⟩
  else
    match auth_credentials env now s with
    | ⟨Except.error err, s1, evs⟩ => ⟨Except.error err, s1, evs⟩
    | ⟨Except.ok auth, s1, evs⟩ =>
      let response := env.assume_role_with_web_identity expiration_duration
        s1.settings.prescient_aws_role auth.id_token
      let creds := response.getD BucketDict.empty
      let s2 : ClientState := { s1 with bucket_credentials := creds }
      let evs2 := evs ++ [CallEvent.assume_role_with_web_identity]
      if creds.isEmpty then
        ⟨Except.error Err.credentialExchangeFailure, s2, evs2⟩
      else
        match s2.bucket_credentials.Expiration with
        | none => ⟨Except.error (Err.keyError "Expiration"), s2, evs2⟩
        | some instant =>
          let s3 : ClientState :=
            { s2 with bucket_credentials :=
                { s2.bucket_credentials with Expiration := some instant } }
          ⟨Except.ok s3.bucket_credentials, s3, evs2⟩

/-- client.py lines 253-265, refresh_credentials: when force is true, pop the
expiration key of the auth dict (KeyError when absent), then read
bucket_credentials for its side effects, discarding the value. -/
def refresh_credentials (env : Env) (now : Instant) (s : ClientState)
    (force : Bool) : Outcome Unit :=
  if force then
    match s.auth_credentials.expiration with
    | none => ⟨Except.error (Err.keyError "expiration"), s, []⟩
    | some _ =>
      let s1 : ClientState :=
        { s with auth_credentials := { s.auth_credentials with expiration := none } }
      let o := bucket_credentials env now s1
      ⟨Except.map (fun _ => ()) o.result, o.state, o.calls⟩
  else
    let o := bucket_credentials env now s
    ⟨Except.map (fun _ => ()) o.result, o.state, o.calls⟩

/-- A configured endpoint URL in parsed form, as urllib.parse.urljoin reads
it: a scheme, a network location (no slash), and the path component held as
its slash-separated segments, exactly the list bpath.split("/") that urljoin
itself computes first (the path string is the segments joined by slashes: the
empty path is the one-element list of an empty segment, and an absolute path
begins with an empty segment).  Query, fragment, params and dot-segments are
outside the modelled subset (the configured endpoints carry none). -/
structure UrlBase where
  scheme : String
  netloc : String
  path : List String
  deriving DecidableEq, Repr

/-- Slash-joining of path segments, as the Python join of a list with the
slash separator. -/
def joinSegments : List String → String
  | [] => ""
  | [a] => a
  | a :: b :: t => a ++ "/" ++ joinSegments (b :: t)

/-- The string form of a parsed endpoint URL. -/
def UrlBase.render (u : UrlBase) : String :=
  u.scheme ++ "://" ++ u.netloc ++ joinSegments u.path

/-- The interior filtering step of CPython urljoin: the first and the last
segment are kept and every empty segment strictly between them is dropped
(the assignment to the slice from index one up to the final index, filtering
falsy elements). -/
def filterInterior : List String → List String
  | [] => []
  | [a] => [a]
  | a :: b :: t =>
      a :: (((b :: t).dropLast.filter (fun s => s ≠ "")) ++ [(b :: t).getLastD ""])

/-- The resolved path of CPython urljoin for a plain relative segment: drop
the last base segment when it is nonempty, append the relative segment, drop
redundant empty interior segments, join with slashes, an empty join becoming
a single slash. -/
def resolvedPath (parts : List String) (rel : String) : String :=
  let base_parts := if parts.getLast? = some "" then parts else parts.dropLast
  let joined := joinSegments (filterInterior (base_parts ++ [rel]))
  if joined = "" then "/" else joined

/-- urllib.parse.urljoin on the modelled subset, for a relative reference that
is a plain path segment (no scheme, netloc, slash, query or fragment), as
CPython computes it: scheme and authority come from the base, and the path is
resolvedPath of the base path segments and the relative segment. -/
def urljoin_segment (u : UrlBase) (rel : String) : String :=
  u.scheme ++ "://" ++ u.netloc ++ resolvedPath u.path rel

/-- client.py lines 76-84, property stac_catalog_url:
urljoin(endpoint_url, "stac") on the parsed endpoint. -/
def stac_catalog_url (u : UrlBase) : String :=
  urljoin_segment u "stac"

/-- Whether a string ends in a slash character. -/
def endsInSlash (p : String) : Bool :=
  decide (p.data.getLast? = some '/')

/-- Modelled from the spec: the claimed join of the endpoint URL with the
fixed stac segment, with exactly one separating slash regardless of whether
the endpoint URL already ends in one. -/
def joinOneSlash (endpoint : String) : String :=
  (if endsInSlash endpoint then endpoint else endpoint ++ "/") ++ "stac"

/-- Modelled from the spec: is_expired returns true iff the identity bundle
is empty or its stored expiration instant is not strictly in the future
(a bundle with no stored expiration has no instant strictly in the future). -/
def spec_expired (now : Instant) (d : AuthDict) : Bool :=
  d.isEmpty ||
    !(match d.expiration with
      | some instant => decide (now < instant)
      | none => false)

/-! Concrete fixtures used by witnesses and counterexamples. -/

/-- A concrete settings record, mirroring the values of the test fixtures. -/
def settingsW : Settings :=
  { prescient_endpoint_url := "https://example.server.prescient.earth",
    prescient_aws_region := "some-aws-region",
    prescient_aws_role := "arn:aws:iam::something",
    prescient_tenant_id := "some-tenant-id",
    prescient_client_id := "some-client-id",
    prescient_auth_url := "https://login.somewhere.com/" }

/-- The empty auth-credentials dict of a freshly constructed client. -/
def authEmpty : AuthDict :=
  { id_token := none, refresh_token := none, expiration := none,
    expires_in := none, extra := false }

/-- A concrete well-behaved environment: both acquisitions return a bundle
with a nonempty bearer token, and the exchange returns a full payload. -/
def envW : Env :=
  { acquire_token_interactive :=
      { id_token := some "interactive_token", refresh_token := some "r0",
        expiration := none, expires_in := some 5021, extra := false },
    acquire_token_by_refresh_token := fun _ =>
      { id_token := some "refreshed_token", refresh_token := some "r2",
        expiration := none, expires_in := some 5021, extra := false },
    assume_role_with_web_identity := fun _ _ _ =>
      some { AccessKeyId := some "12345678910111213141516",
             SecretAccessKey := some "", SessionToken := some "",
             Expiration := some 7200, extra := false } }

/-- An environment whose storage exchange returns a response carrying no
Credentials payload; both acquisitions behave as in envW. -/
def envNoCreds : Env :=
  { envW with assume_role_with_web_identity := fun _ _ _ => none }

/-- An environment whose refresh acquisition returns a dict with no id_token
(only provider error metadata); the other capabilities behave as in envW. -/
def envBadRefresh : Env :=
  { envW with acquire_token_by_refresh_token := fun _ =>
      { id_token := none, refresh_token := none, expiration := none,
        expires_in := none, extra := true } }

/-- A state whose identity bundle is unexpired at instant 0 (expiration 100)
and whose cached storage bundle has an Expiration already in the past. -/
def stateCached : ClientState :=
  { settings := settingsW,
    auth_credentials :=
      { id_token := some "cached_token", refresh_token := some "refresh",
        expiration := some 100, expires_in := none, extra := false },
    bucket_credentials :=
      { AccessKeyId := some "cached_id", SecretAccessKey := some "sk",
        SessionToken := some "st", Expiration := some (-50), extra := false } }

/-- A state whose identity bundle is expired at instant 10 (expiration 0)
and holds a refresh token, with no cached storage bundle. -/
def stateExpired : ClientState :=
  { settings := settingsW,
    auth_credentials :=
      { id_token := some "expired_token", refresh_token := some "refresh",
        expiration := some 0, expires_in := none, extra := false },
    bucket_credentials := BucketDict.empty }

/-- The expired state of stateExpired, with a previously cached storage
bundle still present. -/
def stateExpiredCached : ClientState :=
  { stateExpired with bucket_credentials :=
      { AccessKeyId := some "cached_id", SecretAccessKey := some "sk",
        SessionToken := some "st", Expiration := some 999, extra := false } }

/-! Helper lemmas shared by several claims. -/

/-- Helper: the refresh path of auth_credentials.  With an expired identity
bundle holding a refresh token, and a refresh result carrying a nonempty
bearer token, auth_credentials stores and returns the refresh result with
expiration set to now + expiration_duration, after exactly one refresh call. -/
theorem auth_refresh_eq (env : Env) (now : Instant) (s : ClientState) (rt : String)
    (hexp : credentials_expired now s = true)
    (hrt : s.auth_credentials.refresh_token = some rt)
    (htok : (env.acquire_token_by_refresh_token rt).id_token.getD "" ≠ "") :
    auth_credentials env now s =
      ⟨Except.ok { env.acquire_token_by_refresh_token rt with
          expiration := some (now + expiration_duration) },
        { s with auth_credentials := { env.acquire_token_by_refresh_token rt with
            expiration := some (now + expiration_duration) } },
        [CallEvent.acquire_token_by_refresh_token]⟩ := by
  simp [auth_credentials, hexp, AuthDict.isEmpty, hrt, htok]

/-- Helper: the interactive path of auth_credentials.  With an expired
identity bundle that is empty or has no refresh token, and an interactive
result carrying a nonempty bearer token, auth_credentials stores and returns
the interactive result with expiration set to now + expiration_duration,
after exactly one interactive call. -/
theorem auth_interactive_eq (env : Env) (now : Instant) (s : ClientState)
    (hexp : credentials_expired now s = true)
    (hbranch : (s.auth_credentials.isEmpty ||
      s.auth_credentials.refresh_token.isNone) = true)
    (htok : env.acquire_token_interactive.id_token.getD "" ≠ "") :
    auth_credentials env now s =
      ⟨Except.ok { env.acquire_token_interactive with
          expiration := some (now + expiration_duration) },
        { s with auth_credentials := { env.acquire_token_interactive with
            expiration := some (now + expiration_duration) } },
        [CallEvent.acquire_token_interactive]⟩ := by
  simp [auth_credentials, hexp, hbranch, htok]

/-- Helper: whenever the bucket cache is missed and the auth accessor
succeeds, bucket_credentials performs the auth calls followed by exactly one
exchange call, and it never touches the auth bundle or the settings of the
state the auth accessor produced. -/
theorem bucket_after_auth_ok (env : Env) (now : Instant) (s : ClientState)
    (a : AuthDict) (s1 : ClientState) (evs : List CallEvent)
    (hmiss : (!s.bucket_credentials.isEmpty && !(credentials_expired now s)) = false)
    (hauth : auth_credentials env now s = ⟨Except.ok a, s1, evs⟩) :
    (bucket_credentials env now s).calls =
      evs ++ [CallEvent.assume_role_with_web_identity] ∧
    (bucket_credentials env now s).state.auth_credentials = s1.auth_credentials ∧
    (bucket_credentials env now s).state.settings = s1.settings := by
  simp only [bucket_credentials, hmiss, hauth, Bool.false_eq_true, if_false]
  split
  · simp_all
  · split <;> simp_all

/-- Helper: on a state whose auth dict has no expiration key, and with an
environment whose acquisitions return nonempty bearer tokens,
bucket_credentials performs exactly one acquisition (interactive or by
refresh token) followed by exactly one exchange call, and leaves the state
with an unexpired identity bundle. -/
theorem bucket_on_popped (env : Env) (now : Instant) (t : ClientState)
    (hnone : t.auth_credentials.expiration = none)
    (hint : env.acquire_token_interactive.id_token.getD "" ≠ "")
    (href : ∀ rt : String,
      (env.acquire_token_by_refresh_token rt).id_token.getD "" ≠ "") :
    ((bucket_credentials env now t).calls =
        [CallEvent.acquire_token_interactive,
         CallEvent.assume_role_with_web_identity] ∨
      (bucket_credentials env now t).calls =
        [CallEvent.acquire_token_by_refresh_token,
         CallEvent.assume_role_with_web_identity]) ∧
    credentials_expired now (bucket_credentials env now t).state = false := by
  have hexp1 : credentials_expired now t = true := by
    simp [credentials_expired, hnone]
  have hmiss : (!t.bucket_credentials.isEmpty &&
      !(credentials_expired now t)) = false := by
    simp [hexp1]
  have hmain : ∃ (ev : CallEvent) (A : AuthDict),
      (ev = CallEvent.acquire_token_interactive ∨
        ev = CallEvent.acquire_token_by_refresh_token) ∧
      auth_credentials env now t =
        ⟨Except.ok A, { t with auth_credentials := A }, [ev]⟩ ∧
      A.expiration = some (now + expiration_duration) := by
    cases hb : (t.auth_credentials.isEmpty ||
        t.auth_credentials.refresh_token.isNone) with
    | true =>
      exact ⟨CallEvent.acquire_token_interactive, _, Or.inl rfl,
        auth_interactive_eq env now t hexp1 hb hint, rfl⟩
    | false =>
      have hb2 := hb
      simp only [Bool.or_eq_false_iff] at hb2
      cases hr : t.auth_credentials.refresh_token with
      | none => rw [hr] at hb2; simp at hb2
      | some rt =>
        exact ⟨CallEvent.acquire_token_by_refresh_token, _, Or.inr rfl,
          auth_refresh_eq env now t rt hexp1 hr (href rt), rfl⟩
  obtain ⟨ev, A, hev, hauth, hAe⟩ := hmain
  have hbk := bucket_after_auth_ok env now t A _ _ hmiss hauth
  have hAexp : (bucket_credentials env now t).state.auth_credentials.expiration =
      some (now + expiration_duration) := by
    rw [hbk.2.1]; exact hAe
  have hlt : now < now + expiration_duration := by
    rw [lt_add_iff_pos_right]; norm_num [expiration_duration]
  have hfinal : credentials_expired now (bucket_credentials env now t).state
      = false := by
    simp [credentials_expired, hAexp, hlt]
  rcases hev with hev | hev <;> subst hev
  · exact ⟨Or.inl (by simpa using hbk.1), hfinal⟩
  · exact ⟨Or.inr (by simpa using hbk.1), hfinal⟩

/-! Theorems settling the claims. -/

/-- C1: in every client state whose identity bundle is unexpired, the
auth-credentials accessor returns the cached identity bundle unchanged with
no external call, and when a storage bundle is also cached (nonempty dict)
the bucket-credentials accessor returns it unchanged with no external call,
with no condition on the storage bundle Expiration field. -/
theorem c1_cache_reuse (env : Env) (now : Instant) (s : ClientState)
    (h : credentials_expired now s = false) :
    auth_credentials env now s = ⟨Except.ok s.auth_credentials, s, []⟩ ∧
    (s.bucket_credentials.isEmpty = false →
      bucket_credentials env now s = ⟨Except.ok s.bucket_credentials, s, []⟩) := by
  refine ⟨?_, fun hb => ?_⟩
  · simp [auth_credentials, h]
  · simp [bucket_credentials, hb, h]

/-- Witness for C1, at a state whose cached storage bundle carries an
Expiration instant already in the past. -/
theorem c1_cache_reuse_witness :
    auth_credentials envW 0 stateCached =
      ⟨Except.ok stateCached.auth_credentials, stateCached, []⟩ ∧
    bucket_credentials envW 0 stateCached =
      ⟨Except.ok stateCached.bucket_credentials, stateCached, []⟩ :=
  ⟨(c1_cache_reuse envW 0 stateCached (by decide)).1,
   (c1_cache_reuse envW 0 stateCached (by decide)).2 (by decide)⟩

/-- C2: for every client state with an expired identity bundle containing a
refresh token (and a refresh result carrying a nonempty bearer token), one
bucket-credentials call performs exactly one refresh-token acquisition
followed by exactly one storage-exchange call, in that order. -/
theorem c2_refresh_then_exchange (env : Env) (now : Instant) (s : ClientState)
    (rt : String)
    (hexp : credentials_expired now s = true)
    (hrt : s.auth_credentials.refresh_token = some rt)
    (htok : (env.acquire_token_by_refresh_token rt).id_token.getD "" ≠ "") :
    (bucket_credentials env now s).calls =
      [CallEvent.acquire_token_by_refresh_token,
       CallEvent.assume_role_with_web_identity] := by
  have hmiss :
      (!s.bucket_credentials.isEmpty && !(credentials_expired now s)) = false := by
    simp [hexp]
  have h := bucket_after_auth_ok env now s _ _ _ hmiss
    (auth_refresh_eq env now s rt hexp hrt htok)
  simpa using h.1

/-- Witness for C2 at a concrete expired state. -/
theorem c2_refresh_then_exchange_witness :
    (bucket_credentials envW 10 stateExpired).calls =
      [CallEvent.acquire_token_by_refresh_token,
       CallEvent.assume_role_with_web_identity] :=
  c2_refresh_then_exchange envW 10 stateExpired "refresh" (by decide) rfl
    (by decide)

/-- Counterexample to C3 as stated: at instant 10 the identity bundle of
stateExpiredCached is expired, the refresh succeeds, and the exchange returns
a response with no Credentials payload.  The accessor does raise
CredentialExchangeFailure, but the previously cached storage bundle is
overwritten (with the empty payload) instead of being left as it was. -/
theorem c3_counterexample :
    (bucket_credentials envNoCreds 10 stateExpiredCached).result =
      Except.error Err.credentialExchangeFailure ∧
    (bucket_credentials envNoCreds 10 stateExpiredCached).state.bucket_credentials ≠
      stateExpiredCached.bucket_credentials := by
  refine ⟨rfl, ?_⟩
  decide

/-- C3 amended: whenever the bucket cache is missed, the auth accessor
succeeds, and the exchange response carries an empty or absent credentials
payload, bucket_credentials raises CredentialExchangeFailure and the cached
storage bundle is overwritten with that (empty) payload, not preserved. -/
theorem c3_amended_overwrite (env : Env) (now : Instant) (s : ClientState)
    (a : AuthDict) (s1 : ClientState) (evs : List CallEvent)
    (hmiss : (!s.bucket_credentials.isEmpty && !(credentials_expired now s)) = false)
    (hauth : auth_credentials env now s = ⟨Except.ok a, s1, evs⟩)
    (hresp : ((env.assume_role_with_web_identity expiration_duration
        s1.settings.prescient_aws_role a.id_token).getD BucketDict.empty).isEmpty
      = true) :
    (bucket_credentials env now s).result =
      Except.error Err.credentialExchangeFailure ∧
    (bucket_credentials env now s).state.bucket_credentials =
      (env.assume_role_with_web_identity expiration_duration
        s1.settings.prescient_aws_role a.id_token).getD BucketDict.empty := by
  simp only [bucket_credentials, hmiss, Bool.false_eq_true, if_false, hauth]
  simp [hresp]

/-- Witness for the amended C3 at the concrete counterexample input. -/
theorem c3_amended_overwrite_witness :
    (bucket_credentials envNoCreds 10 stateExpiredCached).result =
      Except.error Err.credentialExchangeFailure ∧
    (bucket_credentials envNoCreds 10 stateExpiredCached).state.bucket_credentials =
      BucketDict.empty :=
  c3_amended_overwrite envNoCreds 10 stateExpiredCached _ _ _ (by decide) rfl
    (by decide)

/-- Counterexample to C4 as stated: at instant 10 the identity bundle of
stateExpired is expired with a refresh token present, and the refresh returns
a dict with no bearer token.  The accessor does raise AuthenticationFailure,
but the previously cached identity bundle has been replaced by the failed
provider result instead of being left unchanged. -/
theorem c4_counterexample :
    (auth_credentials envBadRefresh 10 stateExpired).result =
      Except.error Err.authenticationFailure ∧
    (auth_credentials envBadRefresh 10 stateExpired).state.auth_credentials ≠
      stateExpired.auth_credentials := by
  refine ⟨rfl, ?_⟩
  decide

/-- C4 amended: whenever a refresh is triggered and the acquisition result
carries an empty or absent bearer token, auth_credentials raises
AuthenticationFailure and the cached identity bundle is overwritten with that
partially-populated provider result (with no stored expiration), not left
unchanged. -/
theorem c4_amended_overwrite (env : Env) (now : Instant) (s : ClientState)
    (hexp : credentials_expired now s = true)
    (htok : (if s.auth_credentials.isEmpty ||
          s.auth_credentials.refresh_token.isNone
        then env.acquire_token_interactive
        else env.acquire_token_by_refresh_token
          (s.auth_credentials.refresh_token.getD "")).id_token.getD "" = "") :
    (auth_credentials env now s).result = Except.error Err.authenticationFailure ∧
    (auth_credentials env now s).state.auth_credentials =
      (if s.auth_credentials.isEmpty ||
          s.auth_credentials.refresh_token.isNone
       then env.acquire_token_interactive
       else env.acquire_token_by_refresh_token
         (s.auth_credentials.refresh_token.getD "")) := by
  rcases Bool.eq_false_or_eq_true
      (s.auth_credentials.isEmpty || s.auth_credentials.refresh_token.isNone)
    with hb | hb <;>
    rw [hb] at htok <;> simp at htok <;>
    simp [auth_credentials, hexp, hb, htok]

/-- Witness for the amended C4 at the concrete counterexample input. -/
theorem c4_amended_overwrite_witness :
    (auth_credentials envBadRefresh 10 stateExpired).result =
      Except.error Err.authenticationFailure ∧
    (auth_credentials envBadRefresh 10 stateExpired).state.auth_credentials =
      envBadRefresh.acquire_token_by_refresh_token "refresh" :=
  c4_amended_overwrite envBadRefresh 10 stateExpired (by decide) (by decide)

/-- C5: for every client state with an expired identity bundle containing a
refresh token (and a refresh result carrying a nonempty bearer token),
auth_credentials invokes the refresh capability, not the interactive one, and
stores and returns the refresh result with expiration now +
expiration_duration, whatever expires_in value the provider returned. -/
theorem c5_refresh_fixed_expiry (env : Env) (now : Instant) (s : ClientState)
    (rt : String)
    (hexp : credentials_expired now s = true)
    (hrt : s.auth_credentials.refresh_token = some rt)
    (htok : (env.acquire_token_by_refresh_token rt).id_token.getD "" ≠ "") :
    auth_credentials env now s =
      ⟨Except.ok { env.acquire_token_by_refresh_token rt with
          expiration := some (now + expiration_duration) },
        { s with auth_credentials := { env.acquire_token_by_refresh_token rt with
            expiration := some (now + expiration_duration) } },
        [CallEvent.acquire_token_by_refresh_token]⟩ :=
  auth_refresh_eq env now s rt hexp hrt htok

/-- Witness for C5 at a concrete expired state: the provider returns
expires_in 5021, yet the stored expiration is 10 + 3600. -/
theorem c5_refresh_fixed_expiry_witness :
    auth_credentials envW 10 stateExpired =
      ⟨Except.ok { envW.acquire_token_by_refresh_token "refresh" with
          expiration := some (10 + expiration_duration) },
        { stateExpired with auth_credentials :=
            { envW.acquire_token_by_refresh_token "refresh" with
              expiration := some (10 + expiration_duration) } },
        [CallEvent.acquire_token_by_refresh_token]⟩ :=
  c5_refresh_fixed_expiry envW 10 stateExpired "refresh" (by decide) rfl
    (by decide)

/-- C6: credentials_expired agrees with the spec predicate (identity bundle
empty, or stored expiration not strictly in the future) in every state, and
its value depends only on the identity bundle, never on the storage bundle
or the settings. -/
theorem c6_expired_matches_spec (now : Instant) (s : ClientState) :
    credentials_expired now s = spec_expired now s.auth_credentials ∧
    ∀ (st : Settings) (b : BucketDict),
      credentials_expired now ⟨st, s.auth_credentials, b⟩ =
        credentials_expired now s := by
  constructor
  · cases h : s.auth_credentials.expiration with
    | none => simp [credentials_expired, spec_expired, h]
    | some e =>
      by_cases hlt : now < e <;>
        simp [credentials_expired, spec_expired, AuthDict.isEmpty, h, hlt]
  · intro st b
    simp [credentials_expired]

/-- C7: for every client state with an unexpired identity bundle, and an
environment whose acquisitions return nonempty bearer tokens, force refresh
performs exactly one identity acquisition (interactive or by refresh token)
and exactly one storage-exchange call, and afterwards credentials_expired
is false. -/
theorem c7_force_refresh (env : Env) (now : Instant) (s : ClientState)
    (hunexp : credentials_expired now s = false)
    (hint : env.acquire_token_interactive.id_token.getD "" ≠ "")
    (href : ∀ rt : String,
      (env.acquire_token_by_refresh_token rt).id_token.getD "" ≠ "") :
    ((refresh_credentials env now s true).calls =
        [CallEvent.acquire_token_interactive,
         CallEvent.assume_role_with_web_identity] ∨
      (refresh_credentials env now s true).calls =
        [CallEvent.acquire_token_by_refresh_token,
         CallEvent.assume_role_with_web_identity]) ∧
    credentials_expired now (refresh_credentials env now s true).state = false := by
  obtain ⟨e, he⟩ : ∃ e, s.auth_credentials.expiration = some e := by
    cases h : s.auth_credentials.expiration with
    | none => simp [credentials_expired, h] at hunexp
    | some e => exact ⟨e, rfl⟩
  have hcalls : (refresh_credentials env now s true).calls =
      (bucket_credentials env now
        { s with auth_credentials :=
            { s.auth_credentials with expiration := none } }).calls := by
    simp [refresh_credentials, he]
  have hstate : (refresh_credentials env now s true).state =
      (bucket_credentials env now
        { s with auth_credentials :=
            { s.auth_credentials with expiration := none } }).state := by
    simp [refresh_credentials, he]
  rw [hcalls, hstate]
  exact bucket_on_popped env now
    { s with auth_credentials := { s.auth_credentials with expiration := none } }
    rfl hint href

/-- Witness for C7 at a concrete unexpired state; the cached bundle holds a
refresh token, so the refresh branch is taken. -/
theorem c7_force_refresh_witness :
    ((refresh_credentials envW 0 stateCached true).calls =
        [CallEvent.acquire_token_interactive,
         CallEvent.assume_role_with_web_identity] ∨
      (refresh_credentials envW 0 stateCached true).calls =
        [CallEvent.acquire_token_by_refresh_token,
         CallEvent.assume_role_with_web_identity]) ∧
    credentials_expired 0 (refresh_credentials envW 0 stateCached true).state
      = false :=
  c7_force_refresh envW 0 stateCached (by decide) (by decide)
    (fun _ => (by decide : ("refreshed_token" : String) ≠ ""))

/-- Helper: slash-joining with a final segment appended. -/
theorem joinSegments_concat (a : String) (t : List String) (x : String) :
    joinSegments ((a :: t) ++ [x]) = joinSegments (a :: t) ++ "/" ++ x := by
  induction t generalizing a with
  | nil => rfl
  | cons b t2 ih =>
    have h := ih b
    simp only [List.cons_append, joinSegments, List.append_eq] at h ⊢
    rw [h]
    simp [String.append_assoc]

/-- Helper: the interior filtering on a list of at least two segments. -/
theorem filterInterior_cons (a : String) (l : List String) (h : l ≠ []) :
    filterInterior (a :: l) =
      a :: ((l.dropLast.filter (fun s => s ≠ "")) ++ [l.getLastD ""]) := by
  cases l with
  | nil => exact absurd rfl h
  | cons b t => rfl

/-- Helper: a string obtained by appending a slash ends in a slash. -/
theorem endsInSlash_append_slash (a b : String) :
    endsInSlash (a ++ (b ++ "/")) = true := by
  have h : (a ++ (b ++ "/")).data = (a.data ++ b.data) ++ ['/'] := by
    simp [String.data_append]
  unfold endsInSlash
  rw [h, List.getLast?_concat]
  simp

/-- Counterexample to C8 as stated: for the endpoint https://x/api (parsed as
scheme https, netloc x, path segments ["", "api"]), urljoin replaces the
final path segment, yielding https://x/stac, not the claimed
https://x/api/stac obtained by joining with exactly one separating slash. -/
theorem c8_counterexample :
    stac_catalog_url { scheme := "https", netloc := "x", path := ["", "api"] } ≠
      joinOneSlash (UrlBase.render
        { scheme := "https", netloc := "x", path := ["", "api"] }) := by
  decide

/-- C8 amended: the one-separating-slash join law holds for every endpoint
whose path is empty or consists of a leading empty segment, nonempty interior
segments and a trailing empty segment (a slash-terminated path with no
redundant double slash), the netloc being nonempty and slash-free as in any
well-formed URL.  For other endpoints urljoin instead replaces a trailing
non-slash segment and collapses redundant empty segments, and the law fails
there. -/
theorem c8_amended_one_slash (u : UrlBase)
    (hn : u.netloc.data ≠ [])
    (hns : u.netloc.data.getLast? ≠ some '/')
    (hp : u.path = [""] ∨
      ∃ mid, u.path = "" :: mid ++ [""] ∧ ∀ s ∈ mid, s ≠ "") :
    stac_catalog_url u = joinOneSlash u.render := by
  rcases hp with hp | ⟨mid, hp, hmid⟩
  · have hrender : u.render = u.scheme ++ "://" ++ u.netloc := by
      unfold UrlBase.render
      rw [hp]
      simp [joinSegments, String.append_empty]
    have hend : endsInSlash u.render = false := by
      rw [hrender]
      unfold endsInSlash
      rw [String.data_append, List.getLast?_append_of_ne_nil _ hn]
      simp [hns]
    have hrhs : joinOneSlash u.render = u.render ++ "/" ++ "stac" := by
      unfold joinOneSlash
      rw [hend]
      simp
    have hres : resolvedPath u.path "stac" = "/stac" := by
      rw [hp]
      decide
    rw [hrhs, hrender]
    unfold stac_catalog_url urljoin_segment
    rw [hres]
    apply String.ext
    simp [String.data_append]
  · have hlast : u.path.getLast? = some "" := by
      rw [hp, show ("" :: mid ++ [""]) = ("" :: mid) ++ [""] from rfl]
      exact List.getLast?_concat _
    have hfil : ((mid ++ [""]) ++ ["stac"]).dropLast.filter
        (fun s => s ≠ "") = mid := by
      rw [List.dropLast_concat, List.filter_append]
      have h1 : mid.filter (fun s => s ≠ "") = mid :=
        List.filter_eq_self.mpr (fun a ha => decide_eq_true (hmid a ha))
      rw [h1, show List.filter (fun s => decide (s ≠ "")) [""] =
        ([] : List String) from rfl]
      simp
    have hne2 : joinSegments ("" :: mid) ++ "/" ++ "stac" ≠ "" := by
      intro hc
      have hd := congrArg String.data hc
      simp [String.data_append] at hd
    have hres : resolvedPath u.path "stac" =
        joinSegments ("" :: mid) ++ "/" ++ "stac" := by
      simp only [resolvedPath]
      rw [if_pos hlast, hp]
      rw [show (("" :: mid ++ [""]) ++ ["stac"]) =
        "" :: ((mid ++ [""]) ++ ["stac"]) from rfl]
      rw [filterInterior_cons _ _ (by simp), hfil]
      rw [show ((mid ++ [""]) ++ ["stac"]).getLastD "" = "stac" by simp]
      rw [show ("" :: (mid ++ ["stac"])) = ("" :: mid) ++ ["stac"] from rfl]
      rw [joinSegments_concat]
      rw [if_neg hne2]
    have hJpath : joinSegments u.path = joinSegments ("" :: mid) ++ "/" ++ "" := by
      rw [hp, show ("" :: mid ++ [""]) = ("" :: mid) ++ [""] from rfl,
        joinSegments_concat]
    have hrender2 : u.render =
        (u.scheme ++ "://" ++ u.netloc) ++ (joinSegments ("" :: mid) ++ "/") := by
      unfold UrlBase.render
      rw [hJpath, String.append_empty]
    have hend : endsInSlash u.render = true := by
      rw [hrender2]
      exact endsInSlash_append_slash _ _
    have hrhs : joinOneSlash u.render = u.render ++ "stac" := by
      unfold joinOneSlash
      rw [hend]
      simp
    rw [hrhs, hrender2]
    unfold stac_catalog_url urljoin_segment
    rw [hres]
    apply String.ext
    simp [String.data_append]

/-- Witness for the amended C8 at the two endpoints named by the claim:
https://x/ (path segments ["", ""]) and https://x (path segments [""])
both yield https://x/stac. -/
theorem c8_amended_one_slash_witness :
    (stac_catalog_url { scheme := "https", netloc := "x", path := ["", ""] } =
        joinOneSlash (UrlBase.render
          { scheme := "https", netloc := "x", path := ["", ""] }) ∧
      stac_catalog_url { scheme := "https", netloc := "x", path := ["", ""] } =
        "https://x/stac") ∧
    (stac_catalog_url { scheme := "https", netloc := "x", path := [""] } =
        joinOneSlash (UrlBase.render
          { scheme := "https", netloc := "x", path := [""] }) ∧
      stac_catalog_url { scheme := "https", netloc := "x", path := [""] } =
        "https://x/stac") :=
  ⟨⟨c8_amended_one_slash { scheme := "https", netloc := "x", path := ["", ""] }
      (by decide) (by decide) (Or.inr ⟨[], rfl, by simp⟩), by decide⟩,
   ⟨c8_amended_one_slash { scheme := "https", netloc := "x", path := [""] }
      (by decide) (by decide) (Or.inl rfl), by decide⟩⟩

/-- C9: in every client state whose auth dict has no expiration key (in
particular a freshly constructed client), refresh_credentials with force
raises KeyError from the pop, leaving the state unchanged and invoking no
external capability. -/
theorem c9_force_pop_keyerror (env : Env) (now : Instant) (s : ClientState)
    (h : s.auth_credentials.expiration = none) :
    refresh_credentials env now s true =
      ⟨Except.error (Err.keyError "expiration"), s, []⟩ := by
  simp [refresh_credentials, h]

/-- Witness for C9, at a freshly constructed client state. -/
theorem c9_force_pop_keyerror_witness :
    refresh_credentials envW 0
        { settings := settingsW, auth_credentials := authEmpty,
          bucket_credentials := BucketDict.empty } true =
      ⟨Except.error (Err.keyError "expiration"),
        { settings := settingsW, auth_credentials := authEmpty,
          bucket_credentials := BucketDict.empty }, []⟩ :=
  c9_force_pop_keyerror envW 0
    { settings := settingsW, auth_credentials := authEmpty,
      bucket_credentials := BucketDict.empty } rfl

/-- C10: evaluating credentials_expired leaves the whole client state
(settings and both cached bundles) unchanged, invokes no external capability,
and returns the value of the pure expiry predicate. -/
theorem c10_expired_is_pure (now : Instant) (s : ClientState) :
    (credentials_expired_op now s).state = s ∧
    (credentials_expired_op now s).calls = [] ∧
    (credentials_expired_op now s).result =
      Except.ok (credentials_expired now s) := by
  cases h : s.auth_credentials.expiration with
  | none => simp [credentials_expired_op, credentials_expired, h]
  | some e =>
    by_cases hlt : now < e <;>
      simp [credentials_expired_op, credentials_expired, h, hlt]

end PrescientSDK
